import Mathlib

/-!
Verification of the on-call phone resolution pipeline of the
jsm-ops-ccx-middleware repository.

The development shallowly embeds the two data-access modules of the
repository: the active client (direct-client.js, used by server.js) and the
legacy bulk-cache lookup (sql-data.js).  External effects are modelled by
explicit worlds: a RosterWorld fixes what the Jira HTTP endpoints would
answer, a DbWorld fixes what the SQL server would answer, and each operation
returns its result together with the updated cache state and counters or an
event list recording the upstream calls it made.  Errors thrown by the
JavaScript code are modelled as the error branch of Except, carrying the
thrown message string.
-/

namespace JsmOps

/-- JavaScript truthiness of a nullable string: null/undefined and the empty
string are falsy, every other string is truthy. -/
def jsTruthy : Option String → Bool
  | none => false
  | some s => !s.isEmpty

/-- JavaScript String.prototype.trim, on the character list of the string:
leading and trailing whitespace removed.  (The model uses the ASCII
whitespace predicate; the difference to the full Unicode set never reaches
an observable result here because every use is followed by a digit filter
or an emptiness test on digit-free data.) -/
def jsTrim (s : List Char) : List Char :=
  ((s.dropWhile Char.isWhitespace).reverse.dropWhile Char.isWhitespace).reverse

/-- jsTrim on strings. -/
def jsTrimStr (s : String) : String := String.mk (jsTrim s.toList)

/-- The digit extraction the spec describes: strip every non-digit character
of the raw string (JavaScript replace(/\D/g, "") without the preceding
trim).  Used to state the normalizer claims. -/
def stripNonDigits (s : List Char) : List Char := s.filter Char.isDigit

/-- Phone normalization exactly as both getPhoneNumberByEmail
implementations format a cell phone: trim, remove every non-digit, and
prepend the character 1 when exactly ten digits remain. -/
def normalizeDigits (raw : List Char) : List Char :=
  let digits := (jsTrim raw).filter Char.isDigit
  if digits.length = 10 then '1' :: digits else digits

/-- normalizeDigits on strings. -/
def normalizePhoneStr (raw : String) : String := String.mk (normalizeDigits raw.toList)

/-- A word character of the JavaScript regex class \w. -/
def isWordChar (c : Char) : Bool := c.isAlphanum || c == '_'

/-- Helper for friendlyName: uppercase every character that starts a word,
tracking whether the previous character was a word character. -/
def capWordStarts : Bool → List Char → List Char
  | _, [] => []
  | prevWord, ch :: t =>
      (if isWordChar ch && !prevWord then ch.toUpper else ch) :: capWordStarts (isWordChar ch) t

/-- The friendly team name of handleTeamPhoneLookup in server.js:
teamName.replace(/\b\w/g, toUpperCase). -/
def friendlyName (teamName : String) : String :=
  String.mk (capWordStarts false teamName.toList)

/-- One schedule record of the Jira schedules response (direct-client.js
uses only its id and name). -/
structure Schedule where
  id : String
  name : String
deriving DecidableEq

/-- The user payload of the Jira user endpoint, as read by getOnCallUser. -/
structure UserProfile where
  displayName : Option String
  emailAddress : Option String
deriving DecidableEq

/-- What the external Jira endpoints would answer: the schedules list, the
on-call participant ids per schedule id, and the user profile per account
id.  An error value stands for a thrown transport, HTTP-status or
payload-format error, carrying the thrown message. -/
structure RosterWorld where
  schedulesResp : Except String (List Schedule)
  onCallResp : String → Except String (List String)
  userResp : String → Except String UserProfile

/-- One row of the SQL phone directory table, column-aliased as both modules
alias it (fullName, ext, cellPhone, primaryResponsibility, backup, email).
Fields are optional: a SQL NULL is none. -/
structure TableRow where
  fullName : Option String
  ext : Option String
  cellPhone : Option String
  primaryResponsibility : Option String
  backup : Option String
  email : Option String
deriving DecidableEq

/-- The three columns the per-email TOP 1 query of direct-client.js
selects. -/
structure QueryRow where
  fullName : Option String
  cellPhone : Option String
  email : Option String
deriving DecidableEq

/-- Observable SQL events of one direct-client.js lookup: pool creation,
the per-email query, and the pool close of the finally block. -/
inductive DbEvent where
  | connect
  | query (email : String)
  | closePool
deriving DecidableEq

/-- What the SQL server would answer: the outcome of sql.connect and the
outcome of the per-email TOP 1 query. -/
structure DbWorld where
  connectResp : Except String Unit
  queryResp : String → Except String (Option QueryRow)

/-- The five Jira settings of config.js read by direct-client.js. -/
structure JiraConfig where
  username : Option String
  apiToken : Option String
  cloudId : Option String
  hostUrl : Option String
  basePath : Option String
deriving DecidableEq

/-- The SQL settings of config.js that decide the branches of
getPhoneNumberByEmail in direct-client.js. -/
structure SqlCfg where
  authMode : String
  username : Option String
  password : Option String
  database : Option String
deriving DecidableEq

/-- One time-bounded cache slot of direct-client.js: data and expiry, both
null until populated. -/
structure CacheSlot (α : Type) where
  data : Option α
  expiry : Option Nat
deriving DecidableEq

/-- The module-level cache object of direct-client.js: a schedules slot and
a phoneData slot. -/
structure Cache where
  schedules : CacheSlot (List Schedule)
  phoneData : CacheSlot (List TableRow)
deriving DecidableEq

/-- Schedule cache duration of direct-client.js: 15 minutes in
milliseconds. -/
def scheduleCacheDuration : Nat := 15 * 60 * 1000

/-- Phone data cache duration (both modules): 1 hour in milliseconds. -/
def phoneCacheDuration : Nat := 60 * 60 * 1000

/-- The cache at process start: both slots empty. -/
def initialCache : Cache := ⟨⟨none, none⟩, ⟨none, none⟩⟩

/-- Upstream call counters of one resolution: schedule list fetches,
on-call fetches, user fetches, and the SQL events of the lookup. -/
structure Stats where
  schedFetches : Nat
  onCallFetches : Nat
  userFetches : Nat
  dbEvents : List DbEvent
deriving DecidableEq

/-- Whether a SQL event is a query. -/
def isDbQuery : DbEvent → Bool
  | .query _ => true
  | _ => false

/-- Number of SQL queries in an event list. -/
def dbQueryCount (events : List DbEvent) : Nat := (events.filter isDbQuery).length

/-- Total number of upstream calls (roster HTTP requests of all three kinds
plus database queries) a resolution made. -/
def upstreamCalls (st : Stats) : Nat :=
  st.schedFetches + st.onCallFetches + st.userFetches + dbQueryCount st.dbEvents

/-- The completeness check of getSchedules in direct-client.js: all five
Jira settings must be truthy. -/
def jiraComplete (j : JiraConfig) : Bool :=
  jsTruthy j.username && jsTruthy j.apiToken && jsTruthy j.cloudId &&
    jsTruthy j.hostUrl && jsTruthy j.basePath

/-- The fetch path of getSchedules in direct-client.js, taken on a cache
miss: check the Jira configuration, perform the HTTP request, and on a
valid response replace the schedules slot wholesale with a fresh expiry.
The Nat counts schedule-list HTTP requests made. -/
def fetchSchedules (j : JiraConfig) (w : RosterWorld) (now : Nat) (c : Cache) :
    Except String (List Schedule) × Cache × Nat :=
  if !jiraComplete j then (.error "Incomplete Jira API configuration", c, 0)
  else
    match w.schedulesResp with
    | .error m => (.error m, c, 1)
    | .ok vs =>
        (.ok vs, { c with schedules := ⟨some vs, some (now + scheduleCacheDuration)⟩ }, 1)

/-- getSchedules of direct-client.js: serve the schedules slot when its data
and expiry are truthy and the expiry is in the future, otherwise refetch. -/
def getSchedules (j : JiraConfig) (w : RosterWorld) (now : Nat) (c : Cache) :
    Except String (List Schedule) × Cache × Nat :=
  match c.schedules.data, c.schedules.expiry with
  | some d, some e =>
      if 0 < e ∧ now < e then (.ok d, c, 0) else fetchSchedules j w now c
  | _, _ => fetchSchedules j w now c

/-- getTeamSchedule of direct-client.js: fetch all schedules, return null on
an empty list, otherwise the first schedule whose name equals teamName
exactly. -/
def getTeamSchedule (teamName : String) (j : JiraConfig) (w : RosterWorld) (now : Nat)
    (c : Cache) : Except String (Option Schedule) × Cache × Nat :=
  match getSchedules j w now c with
  | (.error m, c2, n) => (.error m, c2, n)
  | (.ok schedules, c2, n) =>
      if schedules.isEmpty then (.ok none, c2, n)
      else (.ok (schedules.find? fun sc => sc.name == teamName), c2, n)

/-- getOnCallUser of direct-client.js: fetch the on-call participants of a
schedule (first counter), return null when there are none, otherwise fetch
the first participant and return their profile when it carries a truthy
email address (second counter counts the user fetch). -/
def getOnCallUser (w : RosterWorld) (scheduleId : String) :
    Except String (Option UserProfile) × Nat × Nat :=
  match w.onCallResp scheduleId with
  | .error m => (.error m, 1, 0)
  | .ok [] => (.ok none, 1, 0)
  | .ok (pid :: _) =>
      match w.userResp pid with
      | .error m => (.error m, 1, 1)
      | .ok u => if jsTruthy u.emailAddress then (.ok (some u), 1, 1) else (.ok none, 1, 1)

/-- The connect-and-query phase of getPhoneNumberByEmail in
direct-client.js, reached after the authentication-mode branch: require a
database name, connect, run the TOP 1 query for the email, return null when
no record or no truthy cell phone exists, otherwise the normalized number.
The finally block closes the pool on every exit path on which it was
opened, which the event list records. -/
def directConnectAndQuery (s : SqlCfg) (d : DbWorld) (email : String) :
    Except String (Option String) × List DbEvent :=
  if !jsTruthy s.database then (.error "SQL database name is required", [])
  else
    match d.connectResp with
    | .error m => (.error m, [])
    | .ok _ =>
        match d.queryResp email with
        | .error m => (.error m, [.connect, .query email, .closePool])
        | .ok none => (.ok none, [.connect, .query email, .closePool])
        | .ok (some record) =>
            if !jsTruthy record.cellPhone then
              (.ok none, [.connect, .query email, .closePool])
            else
              (.ok (some (normalizePhoneStr (record.cellPhone.getD ""))),
                [.connect, .query email, .closePool])

/-- getPhoneNumberByEmail of direct-client.js: in windows authentication
mode go straight to the connection, in sql mode require truthy username and
password first.  Every call builds a fresh connection; no cache slot is
consulted. -/
def directGetPhoneNumberByEmail (s : SqlCfg) (d : DbWorld) (email : String) :
    Except String (Option String) × List DbEvent :=
  if s.authMode == "windows" then directConnectAndQuery s d email
  else if !(jsTruthy s.username && jsTruthy s.password) then
    (.error "SQL authentication requires username and password", [])
  else directConnectAndQuery s d email

/-- getTeamOnCallPhoneNumber of direct-client.js, the resolution entry
point: schedule lookup, on-call user lookup, phone lookup, each step
throwing a message when its result is falsy and propagating every thrown
error of the steps unchanged. -/
def getTeamOnCallPhoneNumber (teamName : String) (j : JiraConfig) (w : RosterWorld)
    (s : SqlCfg) (d : DbWorld) (now : Nat) (c : Cache) :
    Except String String × Cache × Stats :=
  match getTeamSchedule teamName j w now c with
  | (.error m, c2, n) => (.error m, c2, ⟨n, 0, 0, []⟩)
  | (.ok none, c2, n) =>
      (.error ("No schedule found for team: " ++ teamName), c2, ⟨n, 0, 0, []⟩)
  | (.ok (some sched), c2, n) =>
      match getOnCallUser w sched.id with
      | (.error m, a, b) => (.error m, c2, ⟨n, a, b, []⟩)
      | (.ok none, a, b) =>
          (.error ("No on-call user with email found for team: " ++ teamName),
            c2, ⟨n, a, b, []⟩)
      | (.ok (some user), a, b) =>
          if !jsTruthy user.emailAddress then
            (.error ("No on-call user with email found for team: " ++ teamName),
              c2, ⟨n, a, b, []⟩)
          else
            match directGetPhoneNumberByEmail s d (user.emailAddress.getD "") with
            | (.error m, ev) => (.error m, c2, ⟨n, a, b, ev⟩)
            | (.ok none, ev) =>
                (.error ("No phone number found for email: " ++ user.emailAddress.getD ""),
                  c2, ⟨n, a, b, ev⟩)
            | (.ok (some phone), ev) =>
                if phone.isEmpty then
                  (.error ("No phone number found for email: " ++ user.emailAddress.getD ""),
                    c2, ⟨n, a, b, ev⟩)
                else (.ok phone, c2, ⟨n, a, b, ev⟩)

/-- clearCaches of direct-client.js: both slots reset to null data and null
expiry. -/
def clearCaches (_ : Cache) : Cache := ⟨⟨none, none⟩, ⟨none, none⟩⟩

/-- isHealthy of direct-client.js: try getSchedules and report whether a
non-empty list came back; a thrown error is caught and reported as false. -/
def isHealthy (j : JiraConfig) (w : RosterWorld) (now : Nat) (c : Cache) :
    Bool × Cache × Nat :=
  match getSchedules j w now c with
  | (.ok schedules, c2, n) => (decide (0 < schedules.length), c2, n)
  | (.error _, c2, n) => (false, c2, n)

/-- handleTeamPhoneLookup of server.js: call the client; a falsy phone
number becomes a 404 response, a thrown error becomes a 500 response whose
message is the thrown message (or a generic text when that is empty), and a
truthy phone number is sent back with status 200. -/
def handleTeamPhoneLookup (teamName : String) (j : JiraConfig) (w : RosterWorld)
    (s : SqlCfg) (d : DbWorld) (now : Nat) (c : Cache) : (Nat × String) × Cache :=
  match getTeamOnCallPhoneNumber teamName j w s d now c with
  | (.ok phone, c2, _) =>
      (if phone.isEmpty then
        (404, "No on-call phone number found for " ++ friendlyName teamName ++ " team")
      else (200, phone), c2)
  | (.error m, c2, _) =>
      ((500, if m.isEmpty then "Internal server error processing on-call lookup" else m), c2)

/-- The TOP 1 WHERE EmailAddress = @email query of direct-client.js over an
explicit table: the first row whose email equals the parameter, projected
to the three selected columns. -/
def queryTop1 (table : List TableRow) (email : String) : Option QueryRow :=
  (table.find? fun r => r.email == some email).map fun r => ⟨r.fullName, r.cellPhone, r.email⟩

/-- A database world whose query answers from an explicit directory table
and whose connection succeeds. -/
def dbOfTable (table : List TableRow) : DbWorld :=
  ⟨.ok (), fun email => .ok (queryTop1 table email)⟩

/-- fetchPhoneData of sql-data.js: when the temp-file mode is on and the CSV
file is found and parses, its rows are the snapshot; otherwise the SQL path
runs: an incomplete SQL configuration, a failed pool initialization or a
thrown query all yield an empty snapshot (fail open to empty), a successful
query yields its recordset. -/
def fetchPhoneData (useTempFile : Bool) (csvRows : Option (List TableRow))
    (sqlConfigComplete : Bool) (sqlResp : Except String (List TableRow)) : List TableRow :=
  let sqlPath : List TableRow :=
    if !sqlConfigComplete then []
    else
      match sqlResp with
      | .ok rows => rows
      | .error _ => []
  if useTempFile then
    match csvRows with
    | some rows => rows
    | none => sqlPath
  else sqlPath

/-- ensurePhoneDataLoaded of sql-data.js: keep the cached snapshot while no
force refresh is pending, the cache and expiry are truthy and the expiry is
in the future; otherwise store the freshly fetched snapshot with a one-hour
expiry. -/
def ensurePhoneDataLoaded (now : Nat) (forceRefresh : Bool)
    (cacheData : Option (List TableRow)) (cacheExpiry : Option Nat)
    (fetched : List TableRow) : Option (List TableRow) × Option Nat :=
  match cacheData, cacheExpiry with
  | some d, some e =>
      if forceRefresh = false ∧ 0 < e ∧ now < e then (some d, some e)
      else (some fetched, some (now + phoneCacheDuration))
  | _, _ => (some fetched, some (now + phoneCacheDuration))

/-- getPhoneNumberByEmail of sql-data.js, after the snapshot is loaded: an
empty or missing cache yields null; lookup is a case-insensitive first
match on a truthy email; a truthy cell phone is normalized; otherwise a
truthy extension that stays non-empty after trimming yields the configured
default phone number; otherwise null. -/
def sqlDataGetPhoneNumberByEmail (cacheData : Option (List TableRow))
    (defaultPhoneNumber : String) (email : String) : Option String :=
  match cacheData with
  | none => none
  | some rows =>
      if rows.length = 0 then none
      else
        match rows.find? (fun row =>
            jsTruthy row.email && ((row.email.getD "").toLower == email.toLower)) with
        | none => none
        | some record =>
            if jsTruthy record.cellPhone then
              some (normalizePhoneStr (record.cellPhone.getD ""))
            else if jsTruthy record.ext then
              (if (jsTrimStr (record.ext.getD "")).isEmpty then none
               else some defaultPhoneNumber)
            else none

/-- The cache states the active client can reach: the initial state, the
result of any schedule fetch, team-schedule lookup, full resolution or
health check, and a cache clear. -/
inductive Reachable : Cache → Prop where
  | init : Reachable initialCache
  | schedules (j : JiraConfig) (w : RosterWorld) (now : Nat) {c : Cache} :
      Reachable c → Reachable (getSchedules j w now c).2.1
  | teamSchedule (t : String) (j : JiraConfig) (w : RosterWorld) (now : Nat) {c : Cache} :
      Reachable c → Reachable (getTeamSchedule t j w now c).2.1
  | resolve (t : String) (j : JiraConfig) (w : RosterWorld) (s : SqlCfg) (d : DbWorld)
      (now : Nat) {c : Cache} :
      Reachable c → Reachable (getTeamOnCallPhoneNumber t j w s d now c).2.1
  | health (j : JiraConfig) (w : RosterWorld) (now : Nat) {c : Cache} :
      Reachable c → Reachable (isHealthy j w now c).2.1
  | clear {c : Cache} : Reachable c → Reachable (clearCaches c)

/-- The default phone number config.js falls back to when the environment
variable is unset. -/
def defaultPhoneNumberDefault : String := "15555555555"

/-- Example schedule used in concrete scenarios. -/
def exSchedule : Schedule := ⟨"s1", "Help-Desk-schedule"⟩

/-- Example roster world: one schedule, one on-call participant p1 whose
profile carries the email a@x.com. -/
def exRoster : RosterWorld :=
  ⟨.ok [exSchedule],
    fun sid => if sid == "s1" then .ok ["p1"] else .ok [],
    fun pid =>
      if pid == "p1" then .ok ⟨some "Alice", some "a@x.com"⟩
      else .error "HTTP error 404: Not Found"⟩

/-- Example complete Jira configuration. -/
def exJira : JiraConfig := ⟨some "u", some "tkn", some "cid", some "https://x", some "api"⟩

/-- Example SQL configuration in sql authentication mode with complete
credentials. -/
def exSqlCfg : SqlCfg := ⟨"sql", some "dbu", some "dbp", some "dbname"⟩

/-- Example database world: the record for a@x.com has the cell phone
555-123-4567. -/
def exDb : DbWorld :=
  ⟨.ok (),
    fun email =>
      if email == "a@x.com" then .ok (some ⟨some "Alice", some "555-123-4567", some "a@x.com"⟩)
      else .ok none⟩

/-- The cache after a first resolution at time 0 against exRoster: the
schedules slot holds the fetched list with a 15 minute expiry, the
phoneData slot is still empty. -/
def exCacheAfter : Cache := ⟨⟨some [exSchedule], some scheduleCacheDuration⟩, ⟨none, none⟩⟩

/-- Example directory row with an extension but no cell phone. -/
def extRow : TableRow := ⟨some "Bob", some "1234", none, none, none, some "b@x.com"⟩

/-- Example directory row whose cell phone already carries a non-US country
code (12 digits). -/
def ukRow : TableRow := ⟨some "Carol", none, some "+44 20 7946 0958", none, none, some "c@x.com"⟩

/-- A roster world with a single schedule of the given name whose on-call
participant resolves to a profile with the given email. -/
def rosterFor (teamName email : String) : RosterWorld :=
  ⟨.ok [⟨"sid", teamName⟩], fun _ => .ok ["pid"], fun _ => .ok ⟨some "Bob", some email⟩⟩

/-- The message the entry point throws when the phone lookup yields null for
a@x.com.  Used to exhibit a transport error carrying the identical text. -/
def msgNF : String := "No phone number found for email: a@x.com"

/-- A database world where the query succeeds but finds no record. -/
def dbNoRecord : DbWorld := ⟨.ok (), fun _ => .ok none⟩

/-- A database world whose query throws an error whose message happens to be
the same text the entry point uses for its not-found outcome. -/
def dbQueryThrows : DbWorld := ⟨.ok (), fun _ => .error msgNF⟩

/-- Decidable equality for Except values, used to evaluate concrete
outcomes. -/
instance {ε α : Type} [DecidableEq ε] [DecidableEq α] : DecidableEq (Except ε α) := fun a b =>
  match a, b with
  | .ok x, .ok y =>
      if h : x = y then .isTrue (by rw [h]) else .isFalse (fun he => h (Except.ok.inj he))
  | .error x, .error y =>
      if h : x = y then .isTrue (by rw [h]) else .isFalse (fun he => h (Except.error.inj he))
  | .ok _, .error _ => .isFalse (fun he => Except.noConfusion he)
  | .error _, .ok _ => .isFalse (fun he => Except.noConfusion he)

/-- A whitespace character is not a digit. -/
theorem whitespace_not_digit (c : Char) (h : c.isWhitespace = true) : c.isDigit = false := by
  simp only [Char.isWhitespace, Bool.or_eq_true, decide_eq_true_eq] at h
  rcases h with ((h | h) | h) | h <;> subst h <;> decide

/-- Dropping leading whitespace does not change the digit filter. -/
theorem filter_digit_dropWhile_ws (l : List Char) :
    (l.dropWhile Char.isWhitespace).filter Char.isDigit = l.filter Char.isDigit := by
  induction l with
  | nil => rfl
  | cons c t ih =>
    rw [List.dropWhile_cons]
    by_cases h : c.isWhitespace = true
    · simp only [h, if_true, ih, List.filter_cons, whitespace_not_digit c h]
      simp
    · simp [h]

/-- Trimming does not change the digit filter: the digits of the trimmed raw
phone string are exactly the digits of the raw phone string. -/
theorem filter_digit_jsTrim (l : List Char) :
    (jsTrim l).filter Char.isDigit = l.filter Char.isDigit := by
  unfold jsTrim
  rw [List.filter_reverse, filter_digit_dropWhile_ws, List.filter_reverse,
    filter_digit_dropWhile_ws, List.reverse_reverse]

/-- The digit filter leaves only digits. -/
theorem filter_digit_all (l : List Char) :
    (l.filter Char.isDigit).all Char.isDigit = true := by
  rw [List.all_eq_true]
  intro a ha
  exact List.of_mem_filter ha

/-- stripNonDigits leaves only digits. -/
theorem stripNonDigits_all (l : List Char) :
    (stripNonDigits l).all Char.isDigit = true := filter_digit_all l

/-- The normalizer equals the spec described digit stripping with the
conditional country code: the trim step is absorbed by the digit filter. -/
theorem normalizeDigits_eq (raw : List Char) :
    normalizeDigits raw =
      if (stripNonDigits raw).length = 10 then '1' :: stripNonDigits raw
      else stripNonDigits raw := by
  unfold normalizeDigits stripNonDigits
  rw [filter_digit_jsTrim]

/-- Every normalized phone consists of digits only. -/
theorem normalizeDigits_all (raw : List Char) :
    (normalizeDigits raw).all Char.isDigit = true := by
  rw [normalizeDigits_eq]
  split
  · rw [List.all_cons, stripNonDigits_all raw]
    decide
  · exact stripNonDigits_all raw

/-- When the raw phone has exactly ten digits, the normalized phone has
eleven characters and starts with the digit 1. -/
theorem normalizeDigits_len10 (raw : List Char) (h : (stripNonDigits raw).length = 10) :
    (normalizeDigits raw).length = 11 ∧ (normalizeDigits raw).head? = some '1' := by
  rw [normalizeDigits_eq, if_pos h]
  exact ⟨by simp [h], rfl⟩

/-- C3: if the directory database query throws during a directory refresh,
the error does not cross the cache boundary: fetchPhoneData returns an
empty snapshot, ensurePhoneDataLoaded stores that empty snapshot with a
fresh expiry, and the next lookup against the empty snapshot completes with
the null (NotFound) outcome instead of the database error. -/
theorem c3_fail_open_to_empty (m email defaultPhone : String) (now : Nat) :
    fetchPhoneData false none true (.error m) = [] ∧
    ensurePhoneDataLoaded now false none none (fetchPhoneData false none true (.error m)) =
      (some [], some (now + phoneCacheDuration)) ∧
    sqlDataGetPhoneNumberByEmail (some []) defaultPhone email = none :=
  ⟨rfl, rfl, rfl⟩

/-- A direct lookup either fails before the pool is created (no SQL events)
or records exactly one connect, one query for the email, and one pool
close. -/
theorem directGet_shape (s : SqlCfg) (d : DbWorld) (email : String) :
    ((∃ m, (directGetPhoneNumberByEmail s d email).1 = .error m) ∧
      (directGetPhoneNumberByEmail s d email).2 = []) ∨
    (directGetPhoneNumberByEmail s d email).2 =
      [DbEvent.connect, DbEvent.query email, DbEvent.closePool] := by
  unfold directGetPhoneNumberByEmail directConnectAndQuery
  repeat' split
  all_goals first
    | exact Or.inl ⟨⟨_, rfl⟩, rfl⟩
    | exact Or.inr rfl

/-- A direct lookup that returns (rather than throws) created the pool, ran
the per-email query and closed the pool. -/
theorem directGet_ok_events (s : SqlCfg) (d : DbWorld) (email : String) (v : Option String)
    (h : (directGetPhoneNumberByEmail s d email).1 = .ok v) :
    (directGetPhoneNumberByEmail s d email).2 =
      [DbEvent.connect, DbEvent.query email, DbEvent.closePool] := by
  rcases directGet_shape s d email with ⟨⟨m, he⟩, _⟩ | hev
  · rw [he] at h
    cases h
  · exact hev

/-- A direct lookup result is null, a thrown error, or the normalization of
some raw cell phone string. -/
theorem directGet_result_shape (s : SqlCfg) (d : DbWorld) (email : String) :
    (directGetPhoneNumberByEmail s d email).1 = .ok none ∨
    (∃ m, (directGetPhoneNumberByEmail s d email).1 = .error m) ∨
    ∃ raw, (directGetPhoneNumberByEmail s d email).1 = .ok (some (normalizePhoneStr raw)) := by
  unfold directGetPhoneNumberByEmail directConnectAndQuery
  repeat' split
  all_goals first
    | exact Or.inl rfl
    | exact Or.inr (Or.inl ⟨_, rfl⟩)
    | exact Or.inr (Or.inr ⟨_, rfl⟩)

/-- When getOnCallUser returns a user, it made exactly one on-call fetch
and one user fetch. -/
theorem getOnCallUser_ok_some (w : RosterWorld) (sid : String) (u : UserProfile)
    (h : (getOnCallUser w sid).1 = .ok (some u)) : (getOnCallUser w sid).2 = (1, 1) := by
  unfold getOnCallUser at h ⊢
  rcases hr : w.onCallResp sid with m | ps
  · rw [hr] at h
    exact Except.noConfusion h
  · rw [hr] at h
    rcases ps with _ | ⟨pid, rest⟩
    · simp at h
    · simp only at h ⊢
      rcases hu : w.userResp pid with m2 | prof
      · rfl
      · cases hju : jsTruthy prof.emailAddress <;> simp [hju]

/-- getSchedules either leaves the cache unchanged or replaces the
schedules slot with a successfully fetched list and a fresh expiry. -/
theorem getSchedules_cache_shape (j : JiraConfig) (w : RosterWorld) (now : Nat) (c : Cache) :
    (getSchedules j w now c).2.1 = c ∨
    ∃ vs, w.schedulesResp = .ok vs ∧
      (getSchedules j w now c).2.1 =
        { c with schedules := ⟨some vs, some (now + scheduleCacheDuration)⟩ } := by
  unfold getSchedules fetchSchedules
  repeat' split
  all_goals first
    | exact Or.inl rfl
    | (rename_i heq; exact Or.inr ⟨_, heq, rfl⟩)

/-- getSchedules never touches the phoneData slot. -/
theorem getSchedules_phoneData (j : JiraConfig) (w : RosterWorld) (now : Nat) (c : Cache) :
    (getSchedules j w now c).2.1.phoneData = c.phoneData := by
  rcases getSchedules_cache_shape j w now c with h | ⟨vs, _, h⟩ <;> rw [h]

/-- getTeamSchedule returns the cache and fetch count of its getSchedules
call. -/
theorem getTeamSchedule_cache (t : String) (j : JiraConfig) (w : RosterWorld) (now : Nat)
    (c : Cache) :
    (getTeamSchedule t j w now c).2.1 = (getSchedules j w now c).2.1 ∧
    (getTeamSchedule t j w now c).2.2 = (getSchedules j w now c).2.2 := by
  unfold getTeamSchedule
  rcases h : getSchedules j w now c with ⟨r, c2, n⟩
  rcases r with m | l
  · exact ⟨rfl, rfl⟩
  · by_cases hl : l.isEmpty <;> simp [hl]

/-- isHealthy returns the cache of its getSchedules call. -/
theorem isHealthy_cache (j : JiraConfig) (w : RosterWorld) (now : Nat) (c : Cache) :
    (isHealthy j w now c).2.1 = (getSchedules j w now c).2.1 := by
  unfold isHealthy
  rcases h : getSchedules j w now c with ⟨r, c2, n⟩
  rcases r with m | l <;> rfl

/-- The resolution entry point returns the cache of its schedule lookup,
reports that many schedule fetches, and on success it made exactly one
on-call fetch, one user fetch and one connect-query-close round trip, with
a non-empty phone number. -/
theorem pipeline_frame (t : String) (j : JiraConfig) (w : RosterWorld) (s : SqlCfg)
    (d : DbWorld) (now : Nat) (c : Cache) :
    (getTeamOnCallPhoneNumber t j w s d now c).2.1 = (getTeamSchedule t j w now c).2.1 ∧
    (getTeamOnCallPhoneNumber t j w s d now c).2.2.schedFetches =
      (getTeamSchedule t j w now c).2.2 ∧
    ∀ p, (getTeamOnCallPhoneNumber t j w s d now c).1 = .ok p →
      p ≠ "" ∧
      (getTeamOnCallPhoneNumber t j w s d now c).2.2.onCallFetches = 1 ∧
      (getTeamOnCallPhoneNumber t j w s d now c).2.2.userFetches = 1 ∧
      ∃ em, (getTeamOnCallPhoneNumber t j w s d now c).2.2.dbEvents =
        [DbEvent.connect, DbEvent.query em, DbEvent.closePool] := by
  rcases hts : getTeamSchedule t j w now c with ⟨r, c2, n⟩
  unfold getTeamOnCallPhoneNumber
  rw [hts]
  rcases r with m | os
  · exact ⟨rfl, rfl, fun p hp => Except.noConfusion hp⟩
  · rcases os with _ | sched
    · exact ⟨rfl, rfl, fun p hp => Except.noConfusion hp⟩
    · simp only
      rcases h2 : getOnCallUser w sched.id with ⟨r2, a, b⟩
      rcases r2 with m2 | ou
      · exact ⟨rfl, rfl, fun p hp => Except.noConfusion hp⟩
      · rcases ou with _ | user
        · exact ⟨rfl, rfl, fun p hp => Except.noConfusion hp⟩
        · simp only
          split
          · exact ⟨rfl, rfl, fun p hp => Except.noConfusion hp⟩
          · rename_i hju
            rcases h3 : directGetPhoneNumberByEmail s d (user.emailAddress.getD "")
              with ⟨r3, ev⟩
            rcases r3 with m3 | op
            · exact ⟨rfl, rfl, fun p hp => Except.noConfusion hp⟩
            · rcases op with _ | phone
              · exact ⟨rfl, rfl, fun p hp => Except.noConfusion hp⟩
              · simp only
                split
                · exact ⟨rfl, rfl, fun p hp => Except.noConfusion hp⟩
                · rename_i hpe
                  refine ⟨rfl, rfl, fun p hp => ?_⟩
                  have hpp : phone = p := Except.ok.inj hp
                  subst hpp
                  have h4 := getOnCallUser_ok_some w sched.id user (by rw [h2])
                  rw [h2] at h4
                  have h5 := directGet_ok_events s d (user.emailAddress.getD "")
                    (some phone) (by rw [h3])
                  rw [h3] at h5
                  refine ⟨?_, congrArg Prod.fst h4, congrArg Prod.snd h4,
                    user.emailAddress.getD "", h5⟩
                  intro hnil
                  apply hpe
                  rw [hnil]
                  rfl

/-- A fresh schedule slot is served from cache without any fetch. -/
theorem getSchedules_fresh (j : JiraConfig) (w : RosterWorld) (now : Nat) (c : Cache)
    (dd : List Schedule) (ee : Nat) (hd : c.schedules.data = some dd)
    (he : c.schedules.expiry = some ee) (hpos : 0 < ee) (hfresh : now < ee) :
    getSchedules j w now c = (.ok dd, c, 0) := by
  unfold getSchedules
  rw [hd, he]
  simp only
  rw [if_pos ⟨hpos, hfresh⟩]

/-- C1: the claim says an extension-only directory record resolves to the
configured default number; on the active resolution path it does not: with
a record for b@x.com holding extension 1234 and no cell phone, the entry
point fails with the not-found error message instead of returning the
default number. -/
theorem c1_counterexample :
    extRow.ext = some "1234" ∧ extRow.cellPhone = none ∧
    (getTeamOnCallPhoneNumber "Network-schedule" exJira
        (rosterFor "Network-schedule" "b@x.com") exSqlCfg (dbOfTable [extRow]) 0
        initialCache).1 = .error "No phone number found for email: b@x.com" ∧
    (getTeamOnCallPhoneNumber "Network-schedule" exJira
        (rosterFor "Network-schedule" "b@x.com") exSqlCfg (dbOfTable [extRow]) 0
        initialCache).1 ≠ .ok defaultPhoneNumberDefault := by
  refine ⟨rfl, rfl, by decide, by decide⟩

/-- C1 (amended): only the legacy sql-data.js lookup substitutes the
configured default number for a record with a truthy extension and no cell
phone; the active direct-client.js lookup returns null for such a record,
so the resolution entry point fails with the not-found error. -/
theorem c1_amended_extension_behavior (extVal email defaultPhone teamName : String)
    (hext : extVal ≠ "") (htrim : jsTrimStr extVal ≠ "") (hemail : email ≠ "") :
    sqlDataGetPhoneNumberByEmail
        (some [⟨some "Bob", some extVal, none, none, none, some email⟩]) defaultPhone email =
      some defaultPhone ∧
    (directGetPhoneNumberByEmail exSqlCfg
        (dbOfTable [⟨some "Bob", some extVal, none, none, none, some email⟩]) email).1 =
      .ok none ∧
    (getTeamOnCallPhoneNumber teamName exJira (rosterFor teamName email) exSqlCfg
        (dbOfTable [⟨some "Bob", some extVal, none, none, none, some email⟩]) 0
        initialCache).1 = .error ("No phone number found for email: " ++ email) := by
  have hie : email.isEmpty = false := by
    cases h : email.isEmpty
    · rfl
    · exact absurd ((String.isEmpty_iff email).mp h) hemail
  have hxe : extVal.isEmpty = false := by
    cases h : extVal.isEmpty
    · rfl
    · exact absurd ((String.isEmpty_iff extVal).mp h) hext
  have hte : (jsTrimStr extVal).isEmpty = false := by
    cases h : (jsTrimStr extVal).isEmpty
    · rfl
    · exact absurd ((String.isEmpty_iff (jsTrimStr extVal)).mp h) htrim
  have d1 : ("dbu" : String).isEmpty = false := by decide
  have d2 : ("dbp" : String).isEmpty = false := by decide
  have d3 : ("dbname" : String).isEmpty = false := by decide
  have d4 : ("u" : String).isEmpty = false := by decide
  have d5 : ("tkn" : String).isEmpty = false := by decide
  have d6 : ("cid" : String).isEmpty = false := by decide
  have d7 : ("https://x" : String).isEmpty = false := by decide
  have d8 : ("api" : String).isEmpty = false := by decide
  have hdq : directGetPhoneNumberByEmail exSqlCfg
      (dbOfTable [⟨some "Bob", some extVal, none, none, none, some email⟩]) email =
      (.ok none, [DbEvent.connect, DbEvent.query email, DbEvent.closePool]) := by
    unfold directGetPhoneNumberByEmail directConnectAndQuery
    simp [exSqlCfg, dbOfTable, queryTop1, jsTruthy, d1, d2, d3]
  refine ⟨?_, by rw [hdq], ?_⟩
  · unfold sqlDataGetPhoneNumberByEmail
    simp [jsTruthy, hie, hxe, hte]
  · unfold getTeamOnCallPhoneNumber getTeamSchedule getSchedules fetchSchedules getOnCallUser
    simp [rosterFor, exJira, initialCache, jiraComplete, jsTruthy, hie, hdq,
      d4, d5, d6, d7, d8]

/-- C1 witness: the amended behavior at the concrete extension-only record
for b@x.com. -/
theorem c1_witness :
    sqlDataGetPhoneNumberByEmail
        (some [⟨some "Bob", some "1234", none, none, none, some "b@x.com"⟩]) "15555555555"
        "b@x.com" = some "15555555555" ∧
    (directGetPhoneNumberByEmail exSqlCfg
        (dbOfTable [⟨some "Bob", some "1234", none, none, none, some "b@x.com"⟩]) "b@x.com").1 =
      .ok none ∧
    (getTeamOnCallPhoneNumber "Windows-schedule" exJira (rosterFor "Windows-schedule" "b@x.com")
        exSqlCfg (dbOfTable [⟨some "Bob", some "1234", none, none, none, some "b@x.com"⟩]) 0
        initialCache).1 = .error ("No phone number found for email: " ++ "b@x.com") :=
  c1_amended_extension_behavior "1234" "b@x.com" "15555555555" "Windows-schedule"
    (by decide) (by decide) (by decide)

/-- C2: the claim says a repeated resolution inside both cache windows makes
zero upstream calls; in fact a second call one minute after the first
(within both the 15 minute and the 1 hour window) still makes three
upstream calls: the on-call fetch, the user fetch and a database query;
only the schedule-list fetch is saved. -/
theorem c2_counterexample :
    (getTeamOnCallPhoneNumber "Help-Desk-schedule" exJira exRoster exSqlCfg exDb 0
        initialCache).1 = .ok "15551234567" ∧
    (getTeamOnCallPhoneNumber "Help-Desk-schedule" exJira exRoster exSqlCfg exDb 0
        initialCache).2.1 = exCacheAfter ∧
    60000 < scheduleCacheDuration ∧ 60000 < phoneCacheDuration ∧
    upstreamCalls (getTeamOnCallPhoneNumber "Help-Desk-schedule" exJira exRoster exSqlCfg exDb
        60000 exCacheAfter).2.2 = 3 ∧
    (getTeamOnCallPhoneNumber "Help-Desk-schedule" exJira exRoster exSqlCfg exDb
        60000 exCacheAfter).2.2.schedFetches = 0 := by
  refine ⟨by decide, by decide, by decide, by decide, by decide, by decide⟩

/-- C2 (amended): while the schedule slot is fresh, a resolution makes no
schedule-list fetch and leaves the cache untouched, but it is not free of
upstream calls: a successful resolution still makes one on-call fetch, one
user fetch and one connect-query-close database round trip, because the
phoneData slot is never consulted. -/
theorem c2_amended_fresh_schedule_cache (t : String) (j : JiraConfig) (w : RosterWorld)
    (s : SqlCfg) (d : DbWorld) (now : Nat) (c : Cache) (dd : List Schedule) (ee : Nat)
    (hd : c.schedules.data = some dd) (he : c.schedules.expiry = some ee)
    (hpos : 0 < ee) (hfresh : now < ee) :
    (getTeamOnCallPhoneNumber t j w s d now c).2.2.schedFetches = 0 ∧
    (getTeamOnCallPhoneNumber t j w s d now c).2.1 = c ∧
    ∀ p, (getTeamOnCallPhoneNumber t j w s d now c).1 = .ok p →
      (getTeamOnCallPhoneNumber t j w s d now c).2.2.onCallFetches = 1 ∧
      (getTeamOnCallPhoneNumber t j w s d now c).2.2.userFetches = 1 ∧
      ∃ em, (getTeamOnCallPhoneNumber t j w s d now c).2.2.dbEvents =
        [DbEvent.connect, DbEvent.query em, DbEvent.closePool] := by
  have hs := getSchedules_fresh j w now c dd ee hd he hpos hfresh
  have hts := getTeamSchedule_cache t j w now c
  rw [hs] at hts
  obtain ⟨hf1, hf2, hf3⟩ := pipeline_frame t j w s d now c
  refine ⟨by rw [hf2, hts.2], by rw [hf1, hts.1], ?_⟩
  intro p hp
  obtain ⟨_, ha, hb, hev⟩ := hf3 p hp
  exact ⟨ha, hb, hev⟩

/-- C2 witness: the amended statement at the concrete second call one
minute into the fresh schedule window. -/
theorem c2_witness :
    (getTeamOnCallPhoneNumber "Help-Desk-schedule" exJira exRoster exSqlCfg exDb 60000
        exCacheAfter).2.2.schedFetches = 0 ∧
    (getTeamOnCallPhoneNumber "Help-Desk-schedule" exJira exRoster exSqlCfg exDb 60000
        exCacheAfter).2.1 = exCacheAfter ∧
    ∀ p, (getTeamOnCallPhoneNumber "Help-Desk-schedule" exJira exRoster exSqlCfg exDb 60000
        exCacheAfter).1 = .ok p →
      (getTeamOnCallPhoneNumber "Help-Desk-schedule" exJira exRoster exSqlCfg exDb 60000
          exCacheAfter).2.2.onCallFetches = 1 ∧
      (getTeamOnCallPhoneNumber "Help-Desk-schedule" exJira exRoster exSqlCfg exDb 60000
          exCacheAfter).2.2.userFetches = 1 ∧
      ∃ em, (getTeamOnCallPhoneNumber "Help-Desk-schedule" exJira exRoster exSqlCfg exDb 60000
          exCacheAfter).2.2.dbEvents =
        [DbEvent.connect, DbEvent.query em, DbEvent.closePool] :=
  c2_amended_fresh_schedule_cache "Help-Desk-schedule" exJira exRoster exSqlCfg exDb 60000
    exCacheAfter [exSchedule] scheduleCacheDuration rfl rfl (by decide) (by decide)

/-- C4: phone normalization strips every non-digit character of the raw
string, prepends the digit 1 exactly when ten digits remain, and otherwise
passes the digit string through unchanged; the three concrete examples of
the spec evaluate as stated. -/
theorem c4_phone_normalization :
    (∀ raw : List Char,
      normalizeDigits raw =
        if (stripNonDigits raw).length = 10 then '1' :: stripNonDigits raw
        else stripNonDigits raw) ∧
    normalizePhoneStr "(555) 123-4567" = "15551234567" ∧
    normalizePhoneStr "+44 20 7946 0958" = "442079460958" ∧
    (stripNonDigits "+44 20 7946 0958".toList).length = 12 ∧
    normalizePhoneStr "" = "" := by
  refine ⟨normalizeDigits_eq, by decide, by decide, by decide, rfl⟩

/-- C5: the claim says every produced number is 11 digits starting with 1,
the configured default, or absent; the pipeline refutes it: a directory
cell phone already carrying a country code is passed through as the plain
12 digit string, which is neither 11 characters long, nor the default
number of the default configuration, nor absent. -/
theorem c5_counterexample :
    (getTeamOnCallPhoneNumber "SQL-schedule" exJira (rosterFor "SQL-schedule" "c@x.com")
        exSqlCfg (dbOfTable [ukRow]) 0 initialCache).1 = .ok "442079460958" ∧
    "442079460958".length ≠ 11 ∧
    "442079460958" ≠ defaultPhoneNumberDefault := by
  refine ⟨by decide, by decide, by decide⟩

/-- C5 (amended): every phone number either lookup produces is absent, a
thrown error, the configured default number, or the normalization of the
raw directory phone; a normalized phone consists solely of digits and is
exactly 11 digits starting with 1 precisely when the raw phone carried
exactly ten digits, while other digit counts pass through unchanged. -/
theorem c5_amended_result_shapes :
    (∀ raw : String, (normalizePhoneStr raw).toList.all Char.isDigit = true ∧
      ((stripNonDigits raw.toList).length = 10 →
        (normalizePhoneStr raw).length = 11 ∧
        (normalizePhoneStr raw).toList.head? = some '1')) ∧
    (∀ cacheData defaultPhone email,
      sqlDataGetPhoneNumberByEmail cacheData defaultPhone email = none ∨
      sqlDataGetPhoneNumberByEmail cacheData defaultPhone email = some defaultPhone ∨
      ∃ raw, sqlDataGetPhoneNumberByEmail cacheData defaultPhone email =
        some (normalizePhoneStr raw)) ∧
    (∀ (s : SqlCfg) (d : DbWorld) (email : String),
      (directGetPhoneNumberByEmail s d email).1 = .ok none ∨
      (∃ m, (directGetPhoneNumberByEmail s d email).1 = .error m) ∨
      ∃ raw, (directGetPhoneNumberByEmail s d email).1 = .ok (some (normalizePhoneStr raw))) := by
  refine ⟨?_, ?_, fun s d email => directGet_result_shape s d email⟩
  · intro raw
    refine ⟨normalizeDigits_all raw.toList, fun h => ?_⟩
    obtain ⟨h1, h2⟩ := normalizeDigits_len10 raw.toList h
    exact ⟨h1, h2⟩
  · intro cacheData defaultPhone email
    unfold sqlDataGetPhoneNumberByEmail
    rcases cacheData with _ | rows
    · exact Or.inl rfl
    · repeat' split
      all_goals first
        | exact Or.inl rfl
        | exact Or.inr (Or.inl rfl)
        | exact Or.inr (Or.inr ⟨_, rfl⟩)

/-- C6: the claim says NotFound and UpstreamError reach the caller as
distinguishable outcomes; they do not: a NotFound outcome (query finds no
record) and an UpstreamError outcome (query throws) can surface as the
identical thrown message, and the HTTP handler maps both to the same 500
response. -/
theorem c6_counterexample :
    dbNoRecord.queryResp "a@x.com" = .ok none ∧
    dbQueryThrows.queryResp "a@x.com" = .error msgNF ∧
    (getTeamOnCallPhoneNumber "Help-Desk-schedule" exJira exRoster exSqlCfg dbNoRecord 0
        initialCache).1 = .error msgNF ∧
    (getTeamOnCallPhoneNumber "Help-Desk-schedule" exJira exRoster exSqlCfg dbQueryThrows 0
        initialCache).1 = .error msgNF ∧
    (handleTeamPhoneLookup "Help-Desk-schedule" exJira exRoster exSqlCfg dbNoRecord 0
        initialCache).1 = (500, msgNF) ∧
    (handleTeamPhoneLookup "Help-Desk-schedule" exJira exRoster exSqlCfg dbQueryThrows 0
        initialCache).1 = (500, msgNF) := by
  refine ⟨rfl, rfl, by decide, by decide, by decide, by decide⟩

/-- C6 (amended): every outcome of the entry point is either a non-empty
phone string, answered with status 200, or a thrown error carrying only a
message string, answered with status 500; NotFound and UpstreamError are
not distinguished structurally (the 404 branch of the handler is
unreachable because the client throws instead of returning null). -/
theorem c6_amended_untyped_outcomes (t : String) (j : JiraConfig) (w : RosterWorld)
    (s : SqlCfg) (d : DbWorld) (now : Nat) (c : Cache) :
    (∃ p, (getTeamOnCallPhoneNumber t j w s d now c).1 = .ok p ∧ p ≠ "" ∧
      (handleTeamPhoneLookup t j w s d now c).1 = (200, p)) ∨
    (∃ m, (getTeamOnCallPhoneNumber t j w s d now c).1 = .error m ∧
      (handleTeamPhoneLookup t j w s d now c).1 =
        (500, if m.isEmpty then "Internal server error processing on-call lookup" else m)) := by
  have hfr := (pipeline_frame t j w s d now c).2.2
  rcases hr : getTeamOnCallPhoneNumber t j w s d now c with ⟨r, c2, st⟩
  rcases r with m | p
  · refine Or.inr ⟨m, rfl, ?_⟩
    unfold handleTeamPhoneLookup
    rw [hr]
  · have h1 : (getTeamOnCallPhoneNumber t j w s d now c).1 = .ok p := by rw [hr]
    have hne := (hfr p h1).1
    refine Or.inl ⟨p, rfl, hne, ?_⟩
    unfold handleTeamPhoneLookup
    rw [hr]
    have hpe : p.isEmpty = false := by
      cases hq : p.isEmpty
      · rfl
      · exact absurd ((String.isEmpty_iff p).mp hq) hne
    simp [hpe]

/-- C7: the runtime schedule lookup selects a rotation only by exact string
equality of the rotation name: the result is the first schedule whose name
equals the team name, any selected schedule has exactly that name, and
when no exact match exists the lookup returns null and the entry point
fails with the no-schedule error; no fuzzy matching happens on this path. -/
theorem c7_exact_match (teamName : String) (j : JiraConfig) (w : RosterWorld) (s : SqlCfg)
    (d : DbWorld) (now : Nat) (c : Cache) (l : List Schedule) (c2 : Cache) (n : Nat)
    (h : getSchedules j w now c = (.ok l, c2, n)) :
    getTeamSchedule teamName j w now c =
      (.ok (l.find? fun sc => sc.name == teamName), c2, n) ∧
    (∀ sc, (l.find? fun s2 => s2.name == teamName) = some sc →
      sc.name = teamName ∧ sc ∈ l) ∧
    ((∀ sc ∈ l, sc.name ≠ teamName) →
      getTeamSchedule teamName j w now c = (.ok none, c2, n) ∧
      (getTeamOnCallPhoneNumber teamName j w s d now c).1 =
        .error ("No schedule found for team: " ++ teamName)) := by
  have hts : getTeamSchedule teamName j w now c =
      (.ok (l.find? fun sc => sc.name == teamName), c2, n) := by
    unfold getTeamSchedule
    rw [h]
    rcases l with _ | ⟨a, t⟩
    · rfl
    · rfl
  refine ⟨hts, ?_, ?_⟩
  · intro sc hsc
    refine ⟨?_, List.mem_of_find?_eq_some hsc⟩
    have h1 := List.find?_some hsc
    simpa using h1
  · intro hnone
    have hfn : (l.find? fun sc => sc.name == teamName) = none := by
      rw [List.find?_eq_none]
      intro a ha
      simpa using hnone a ha
    rw [hfn] at hts
    refine ⟨hts, ?_⟩
    unfold getTeamOnCallPhoneNumber
    rw [hts]

/-- C7 witness: the exact-match lookup at the concrete world, for a team
name matching no schedule. -/
theorem c7_witness :
    getTeamSchedule "Nope-schedule" exJira exRoster 0 initialCache =
      (.ok ([exSchedule].find? fun sc => sc.name == "Nope-schedule"), exCacheAfter, 1) ∧
    (∀ sc, ([exSchedule].find? fun s2 => s2.name == "Nope-schedule") = some sc →
      sc.name = "Nope-schedule" ∧ sc ∈ [exSchedule]) ∧
    ((∀ sc ∈ [exSchedule], sc.name ≠ "Nope-schedule") →
      getTeamSchedule "Nope-schedule" exJira exRoster 0 initialCache =
        (.ok none, exCacheAfter, 1) ∧
      (getTeamOnCallPhoneNumber "Nope-schedule" exJira exRoster exSqlCfg exDb 0
          initialCache).1 = .error ("No schedule found for team: " ++ "Nope-schedule")) :=
  c7_exact_match "Nope-schedule" exJira exRoster exSqlCfg exDb 0 initialCache [exSchedule]
    exCacheAfter 1 (by decide)

/-- C8: the claim says the health check never mutates cache state; it does:
from the empty initial cache a successful probe refills the schedules slot
as a side effect. -/
theorem c8_counterexample :
    (isHealthy exJira exRoster 0 initialCache).1 = true ∧
    (isHealthy exJira exRoster 0 initialCache).2.1 ≠ initialCache ∧
    (isHealthy exJira exRoster 0 initialCache).2.1.schedules.data = some [exSchedule] ∧
    initialCache.schedules.data = none := by
  refine ⟨by decide, by decide, by decide, rfl⟩

/-- C8 (amended): the health check never touches the phoneData slot, and it
either leaves the whole cache unchanged (fresh slot, incomplete
configuration, or failed fetch) or refills the schedules slot with a
successfully fetched list and a fresh 15 minute expiry. -/
theorem c8_amended_health_frame (j : JiraConfig) (w : RosterWorld) (now : Nat) (c : Cache) :
    (isHealthy j w now c).2.1.phoneData = c.phoneData ∧
    ((isHealthy j w now c).2.1 = c ∨
      ∃ vs, w.schedulesResp = .ok vs ∧
        (isHealthy j w now c).2.1 =
          { c with schedules := ⟨some vs, some (now + scheduleCacheDuration)⟩ }) := by
  have hc := isHealthy_cache j w now c
  constructor
  · rw [hc]
    exact getSchedules_phoneData j w now c
  · rcases getSchedules_cache_shape j w now c with h2 | ⟨vs, hvs, h2⟩
    · exact Or.inl (by rw [hc, h2])
    · exact Or.inr ⟨vs, hvs, by rw [hc, h2]⟩

/-- C9: in every reachable cache state of the active client the phoneData
slot holds null data and null expiry (only clearCaches writes it, to null),
so every directory lookup runs live: a lookup that returns made exactly one
connect, one per-email query and one pool close, and connects and closes
balance on every exit path. -/
theorem c9_phoneData_never_populated :
    (∀ c, Reachable c → c.phoneData.data = none ∧ c.phoneData.expiry = none) ∧
    (∀ c, (clearCaches c).phoneData = ⟨none, none⟩) ∧
    (∀ (s : SqlCfg) (d : DbWorld) (email : String) (v : Option String),
      (directGetPhoneNumberByEmail s d email).1 = .ok v →
      (directGetPhoneNumberByEmail s d email).2 =
        [DbEvent.connect, DbEvent.query email, DbEvent.closePool]) ∧
    (∀ (s : SqlCfg) (d : DbWorld) (email : String),
      (directGetPhoneNumberByEmail s d email).2.count DbEvent.connect =
        (directGetPhoneNumberByEmail s d email).2.count DbEvent.closePool) := by
  refine ⟨?_, fun c => rfl, fun s d email v h => directGet_ok_events s d email v h, ?_⟩
  · intro c h
    induction h with
    | init => exact ⟨rfl, rfl⟩
    | schedules j w now hc ih =>
        rw [getSchedules_phoneData]
        exact ih
    | teamSchedule t j w now hc ih =>
        rw [(getTeamSchedule_cache t j w now _).1, getSchedules_phoneData]
        exact ih
    | resolve t j w s d now hc ih =>
        rw [(pipeline_frame t j w s d now _).1, (getTeamSchedule_cache t j w now _).1,
          getSchedules_phoneData]
        exact ih
    | health j w now hc ih =>
        rw [isHealthy_cache, getSchedules_phoneData]
        exact ih
    | clear hc => exact ⟨rfl, rfl⟩
  · intro s d email
    rcases directGet_shape s d email with ⟨_, hev⟩ | hev <;> rw [hev] <;> rfl

/-- C10: the health check returns true exactly when the fetched or cached
rotation list is non-empty: an empty list yields false, and a thrown fetch
error is caught and yields false instead of propagating. -/
theorem c10_isHealthy_nonempty (j : JiraConfig) (w : RosterWorld) (now : Nat) (c : Cache) :
    ((isHealthy j w now c).1 = true ↔
      ∃ l, (getSchedules j w now c).1 = .ok l ∧ 0 < l.length) ∧
    (∀ m, (getSchedules j w now c).1 = .error m → (isHealthy j w now c).1 = false) ∧
    (∀ l, (getSchedules j w now c).1 = .ok l →
      (isHealthy j w now c).1 = decide (0 < l.length)) := by
  rcases hg : getSchedules j w now c with ⟨r, c2, n⟩
  unfold isHealthy
  rw [hg]
  rcases r with m | l
  · refine ⟨?_, fun m2 h2 => rfl, fun l h2 => Except.noConfusion h2⟩
    constructor
    · intro hfalse
      exact Bool.noConfusion hfalse
    · rintro ⟨l, hl, _⟩
      exact Except.noConfusion hl
  · refine ⟨?_, fun m h2 => Except.noConfusion h2, fun l2 h2 => by rw [Except.ok.inj h2]⟩
    constructor
    · intro htrue
      exact ⟨l, rfl, of_decide_eq_true htrue⟩
    · rintro ⟨l2, hl, hlen⟩
      rw [← Except.ok.inj hl] at hlen
      exact decide_eq_true hlen

end JsmOps
